import Mathlib

/-!
Shallow embedding of the salary metrics engine of `src/lib/salary-service.ts`
(the aggregation, outlier-detection, median and filtering functions).

Modelling conventions:
* JavaScript numbers that hold currency amounts are integers in all the code
  paths verified here, so salaries, sums and medians are modelled as `Int`;
  thresholds obtained by division or `* 2.5` are modelled exactly in `ℚ`
  (IEEE-754 rounding of such thresholds is not modelled).
* `Math.round` rounds half away from zero upward (`Math.round (-2.5) = -2`),
  i.e. `⌊q + 1/2⌋`; this is `jsRound` below.
* Optional / possibly-`undefined` fields are `Option`s; JavaScript truthiness
  of an optional boolean is `Option.getD · false`.
* `Array.prototype.sort` is stable (ES2019), modelled by `List.mergeSort`
  with the comparator turned into a boolean "may precede" relation.
* JavaScript objects used as string-keyed accumulators preserve insertion
  order; they are modelled as association lists updated in place
  (`addToSum`, `addToCount`), with `Object.entries` being the list itself.
* `created_at` is an ISO timestamp string in the code, used only through
  `new Date(s).getTime()`; it is modelled directly as the resulting
  numeric time.
* `toLocaleString` number formatting inside reason strings is modelled by
  `toString`; only the identity of each reason string matters here.
-/

/-- One salary record, after the accessor has normalised its fields.
`is_flagged_outlier` and `outlier_reason` are the annotation fields written
by `detectOutliers`; they are optional (absent before a detection pass). -/
structure SalaryEntry where
  id : String
  created_at : Int
  formation : String
  speciality : String
  contract_type : String
  salary : Int
  participant_type : String
  job_title : Option String
  job_description : Option String
  years_since_graduation : Option Int
  is_flagged_outlier : Option Bool
  outlier_reason : Option String
deriving DecidableEq, Repr

/-- The per-session filter / preference object (`SalaryFilters`). All fields
are optional in the TypeScript interface; `computeSalaryMetrics` defaults the
whole object to `{}`. -/
structure SalaryFilters where
  formation : Option String := none
  contractType : Option String := none
  speciality : Option String := none
  participantType : Option String := none
  selectedYearsSinceGraduation : Option (List Int) := none
  excludeOutliers : Option Bool := none
  excludeSpecificEntries : Option (List String) := none
deriving DecidableEq, Repr

/-- The default second argument of `computeSalaryMetrics` (`filters = {}`). -/
def defaultFilters : SalaryFilters := {}

/-- JavaScript `Math.round`: round half toward positive infinity. -/
def jsRound (q : ℚ) : Int := ⌊q + 1 / 2⌋

/-- `OUTLIER_DETECTION.ABSOLUTE_MIN`. -/
def ABSOLUTE_MIN : Int := 50000

/-- `OUTLIER_DETECTION.ABSOLUTE_MAX`. -/
def ABSOLUTE_MAX : Int := 2000000

/-- `OUTLIER_DETECTION.MEDIAN_MULTIPLIER` (2.5). -/
def MEDIAN_MULTIPLIER : ℚ := 5 / 2

/-- `OUTLIER_DETECTION.MEDIAN_DIVIDER`. -/
def MEDIAN_DIVIDER : ℚ := 3

/-- `OUTLIER_DETECTION.MIN_GROUP_SIZE`. -/
def MIN_GROUP_SIZE : Nat := 3

/-- `OUTLIER_DETECTION.CONTRACT_LIMITS` — the per-contract salary ceilings;
lookup of any other key yields `undefined` (`none`). -/
def CONTRACT_LIMITS (contractType : String) : Option Int :=
  if contractType = "Stage" then some 500000
  else if contractType = "Alternance" then some 600000
  else if contractType = "CDD" then some 1500000
  else if contractType = "CDI" then some 2000000
  else if contractType = "Prestation de service" then some 2000000
  else none

/-- Reason string of the absolute floor rule. -/
def reasonTooLow : String :=
  "Valeur trop faible (< " ++ toString ABSOLUTE_MIN ++ " F)"

/-- Reason string of the absolute global-ceiling rule. -/
def reasonTooHigh : String :=
  "Valeur trop élevée (> " ++ toString ABSOLUTE_MAX ++ " F)"

/-- Reason string of the contract-specific ceiling rule. -/
def reasonContract (contractType : String) (limit : Int) : String :=
  "Valeur improbable pour un " ++ contractType ++ " (> " ++ toString limit ++ " F)"

/-- Reason string of the relative too-low rule, citing the group median. -/
def reasonBelowMedian (groupMedian : Int) : String :=
  "Très en-dessous de la médiane du groupe (" ++ toString groupMedian ++ " F)"

/-- Reason string of the relative too-high rule, citing the group median. -/
def reasonAboveMedian (groupMedian : Int) : String :=
  "Très au-dessus de la médiane du groupe (" ++ toString groupMedian ++ " F)"

/-- `isAbsoluteOutlier`: `some reason` exactly when the record is flagged
(the TypeScript `{ isOutlier, reason? }` always pairs `isOutlier: true` with
a reason). -/
def isAbsoluteOutlier (salary : Int) (contractType : String) : Option String :=
  if salary < ABSOLUTE_MIN then some reasonTooLow
  else if salary > ABSOLUTE_MAX then some reasonTooHigh
  else
    match CONTRACT_LIMITS contractType with
    | some limit =>
        if salary > limit then some (reasonContract contractType limit) else none
    | none => none

/-- `isRelativeOutlier`. -/
def isRelativeOutlier (salary : Int) (groupMedian : Int) : Option String :=
  if (salary : ℚ) < (groupMedian : ℚ) / MEDIAN_DIVIDER then
    some (reasonBelowMedian groupMedian)
  else if (salary : ℚ) > (groupMedian : ℚ) * MEDIAN_MULTIPLIER then
    some (reasonAboveMedian groupMedian)
  else none

/-- Boolean comparator modelling the JS comparator `a.salary - b.salary`. -/
def salaryLe (a b : SalaryEntry) : Bool := decide (a.salary ≤ b.salary)

/-- `computeMedian`: 0 on empty input, else sort ascending by salary and take
the middle element (odd length) or the rounded mean of the two middle
elements (even length). -/
def computeMedian (entries : List SalaryEntry) : Int :=
  if entries.length = 0 then 0
  else
    let sorted := (entries.mergeSort salaryLe).map (fun e => e.salary)
    let middle := sorted.length / 2
    if sorted.length % 2 = 0 then
      jsRound ((((sorted.getD (middle - 1) 0 : Int) : ℚ) + ((sorted.getD middle 0 : Int) : ℚ)) / 2)
    else
      jsRound ((sorted.getD middle 0 : Int) : ℚ)

/-- `calculateGroupMedian`: median of the (formation, speciality, contract)
group, or `null` when the group has fewer than `MIN_GROUP_SIZE` members. -/
def calculateGroupMedian (entries : List SalaryEntry)
    (formation speciality contractType : String) : Option Int :=
  let groupEntries := entries.filter (fun entry =>
    entry.formation == formation && entry.speciality == speciality &&
      entry.contract_type == contractType)
  if groupEntries.length < MIN_GROUP_SIZE then none
  else some (computeMedian groupEntries)

/-- The flagged return shape of the `detectOutliers` branches:
`{ ...entry, is_flagged_outlier: true, outlier_reason: reason }`. -/
def flagEntry (entry : SalaryEntry) (reason : String) : SalaryEntry :=
  { entry with is_flagged_outlier := some true, outlier_reason := some reason }

/-- The not-flagged return shape of the `detectOutliers` branches:
`{ ...entry, is_flagged_outlier: false, outlier_reason: undefined }`. -/
def clearEntry (entry : SalaryEntry) : SalaryEntry :=
  { entry with is_flagged_outlier := some false, outlier_reason := none }

/-- The body of the `map` inside `detectOutliers`: annotate one entry, with
`entries` the full fetched set used for group medians. -/
def annotateEntry (entries : List SalaryEntry) (entry : SalaryEntry) : SalaryEntry :=
  match isAbsoluteOutlier entry.salary entry.contract_type with
  | some reason => flagEntry entry reason
  | none =>
      match calculateGroupMedian entries entry.formation entry.speciality
          entry.contract_type with
      | some groupMedian =>
          match isRelativeOutlier entry.salary groupMedian with
          | some reason => flagEntry entry reason
          | none => clearEntry entry
      | none => clearEntry entry

/-- `detectOutliers`. -/
def detectOutliers (entries : List SalaryEntry) : List SalaryEntry :=
  entries.map (annotateEntry entries)

/-- `filterEntriesForCalculations`: drop flagged entries when the
`excludeOutliers` preference is truthy, then drop explicitly excluded ids
when a non-empty exclusion list is supplied. -/
def filterEntriesForCalculations (entries : List SalaryEntry)
    (filters : SalaryFilters) : List SalaryEntry :=
  let filteredEntries :=
    if filters.excludeOutliers.getD false then
      entries.filter (fun entry => !(entry.is_flagged_outlier.getD false))
    else entries
  match filters.excludeSpecificEntries with
  | some excluded =>
      if 0 < excluded.length then
        filteredEntries.filter (fun entry => !(excluded.contains entry.id))
      else filteredEntries
  | none => filteredEntries

/-- One `SALARY_BUCKETS` element; `max := none` models
`Number.POSITIVE_INFINITY`. -/
structure Bucket where
  label : String
  bmin : Int
  bmax : Option Int
deriving DecidableEq, Repr

/-- `SALARY_BUCKETS`. -/
def SALARY_BUCKETS : List Bucket :=
  [⟨"< 100k", 0, some 99999⟩,
   ⟨"100k – 199k", 100000, some 199999⟩,
   ⟨"200k – 299k", 200000, some 299999⟩,
   ⟨"300k – 399k", 300000, some 399999⟩,
   ⟨"400k – 499k", 400000, some 499999⟩,
   ⟨"500k – 599k", 500000, some 599999⟩,
   ⟨"600k – 699k", 600000, some 699999⟩,
   ⟨"700k – 799k", 700000, some 799999⟩,
   ⟨"≥ 800k", 800000, none⟩]

/-- The bucket-membership test `salary >= range.min && salary <= range.max`. -/
def bucketContains (b : Bucket) (s : Int) : Bool :=
  decide (b.bmin ≤ s) && (match b.bmax with | some m => decide (s ≤ m) | none => true)

/-- Increment the count of the first bucket containing `s` (the
`rangeCounts.find(...)` followed by `bucket.count += 1`). -/
def incrBucket (rcs : List (Bucket × Nat)) (s : Int) : List (Bucket × Nat) :=
  match rcs with
  | [] => []
  | (b, c) :: rest =>
      if bucketContains b s then (b, c + 1) :: rest
      else (b, c) :: incrBucket rest s

/-- A `{ total, count }` accumulator cell. -/
structure GroupAcc where
  total : Int
  count : Nat
deriving DecidableEq, Repr

/-- Add a salary to the accumulator of `key`, creating the key at the end on
first use (JS object property-insertion order). -/
def addToSum (m : List (String × GroupAcc)) (key : String) (s : Int) :
    List (String × GroupAcc) :=
  match m with
  | [] => [(key, ⟨s, 1⟩)]
  | (k, acc) :: rest =>
      if k = key then (k, ⟨acc.total + s, acc.count + 1⟩) :: rest
      else (k, acc) :: addToSum rest key s

/-- Increment the tally of `key`, creating the key at the end on first use. -/
def addToCount (m : List (String × Nat)) (key : String) : List (String × Nat) :=
  match m with
  | [] => [(key, 1)]
  | (k, c) :: rest =>
      if k = key then (k, c + 1) :: rest
      else (k, c) :: addToCount rest key

/-- The mutable state threaded through the `entriesForCalculations.forEach`
loop of `computeSalaryMetrics`. -/
structure AggState where
  sumByFormation : List (String × GroupAcc)
  sumBySpecialty : List (String × GroupAcc)
  sumByContract : List (String × GroupAcc)
  countByFormation : List (String × Nat)
  countBySpecialty : List (String × Nat)
  countByParticipantType : List (String × Nat)
  rangeCounts : List (Bucket × Nat)
  comboBuckets : List (String × GroupAcc)
deriving Repr

/-- State at loop entry: empty accumulators, all bucket counts 0. -/
def initialAggState : AggState :=
  { sumByFormation := []
    sumBySpecialty := []
    sumByContract := []
    countByFormation := []
    countBySpecialty := []
    countByParticipantType := []
    rangeCounts := SALARY_BUCKETS.map (fun b => (b, 0))
    comboBuckets := [] }

/-- One iteration of the `forEach` body (`safeSalary = Number(entry.salary)
|| 0` is the identity on the integral salaries modelled here). -/
def aggStep (state : AggState) (entry : SalaryEntry) : AggState :=
  let safeSalary := entry.salary
  { sumByFormation := addToSum state.sumByFormation entry.formation safeSalary
    sumBySpecialty := addToSum state.sumBySpecialty entry.speciality safeSalary
    sumByContract := addToSum state.sumByContract entry.contract_type safeSalary
    countByFormation := addToCount state.countByFormation entry.formation
    countBySpecialty := addToCount state.countBySpecialty entry.speciality
    countByParticipantType := addToCount state.countByParticipantType entry.participant_type
    rangeCounts := incrBucket state.rangeCounts safeSalary
    comboBuckets := addToSum state.comboBuckets
      (entry.speciality ++ "-" ++ entry.formation) safeSalary }

/-- `Object.entries(sums).reduce(...)`: turn each accumulator into the
rounded average (`value.count ? Math.round(total / count) : 0`). -/
def accToAverage (m : List (String × GroupAcc)) : List (String × Int) :=
  m.map (fun kv =>
    (kv.1, if kv.2.count ≠ 0 then jsRound ((kv.2.total : ℚ) / (kv.2.count : ℚ)) else 0))

/-- One row of `averageBySpecialtyAndFormation`: split the combo key on "-"
back into (speciality, formation). -/
def comboRow (kv : String × GroupAcc) : String × String × Int :=
  let parts := kv.1.splitOn "-"
  (parts.getD 0 "", parts.getD 1 "",
    if kv.2.count ≠ 0 then jsRound ((kv.2.total : ℚ) / (kv.2.count : ℚ)) else 0)

/-- Boolean comparator modelling the JS comparator
`new Date(b.created_at).getTime() - new Date(a.created_at).getTime()`. -/
def createdDesc (a b : SalaryEntry) : Bool := decide (b.created_at ≤ a.created_at)

/-- The `latestEntries` computation: stable sort of the full entry list by
creation time descending; the trailing `.map` projects every field of the
record, i.e. it is the identity on the model. -/
def sortByCreatedDesc (entries : List SalaryEntry) : List SalaryEntry :=
  entries.mergeSort createdDesc

/-- The `SalaryMetrics` result object. String-keyed `Record`s are the
insertion-ordered association lists produced by the loop. -/
structure SalaryMetrics where
  totalParticipants : Nat
  averageByFormation : List (String × Int)
  averageBySpecialty : List (String × Int)
  averageByContract : List (String × Int)
  countByParticipantType : List (String × Nat)
  salariesByRange : List (String × Nat)
  countByFormation : List (String × Nat)
  countBySpecialty : List (String × Nat)
  averageBySpecialtyAndFormation : List (String × String × Int)
  latestEntries : List SalaryEntry
deriving Repr

/-- `computeSalaryMetrics`. -/
def computeSalaryMetrics (entries : List SalaryEntry)
    (filters : SalaryFilters) : SalaryMetrics :=
  let entriesForCalculations := filterEntriesForCalculations entries filters
  let st := entriesForCalculations.foldl aggStep initialAggState
  { totalParticipants := entriesForCalculations.length
    averageByFormation := accToAverage st.sumByFormation
    averageBySpecialty := accToAverage st.sumBySpecialty
    averageByContract := accToAverage st.sumByContract
    countByParticipantType := st.countByParticipantType
    salariesByRange := st.rangeCounts.map (fun bc => (bc.1.label, bc.2))
    countByFormation := st.countByFormation
    countBySpecialty := st.countBySpecialty
    averageBySpecialtyAndFormation := st.comboBuckets.map comboRow
    latestEntries := sortByCreatedDesc entries }

/-! ### Helper lemmas about sorting by salary -/

/-- Boolean `≤` on `Int`, the comparator on already-projected salaries. -/
def intLe (a b : Int) : Bool := decide (a ≤ b)

theorem sortedSalaries_eq (entries : List SalaryEntry) :
    (entries.mergeSort salaryLe).map (fun e => e.salary) =
      (entries.map (fun e => e.salary)).mergeSort intLe := by
  apply List.map_mergeSort
  intro a _ b _
  rfl

theorem intLe_trans (a b c : Int) : intLe a b → intLe b c → intLe a c := by
  simp only [intLe, decide_eq_true_eq]
  omega

theorem intLe_total (a b : Int) : intLe a b || intLe b a := by
  simp only [intLe, Bool.or_eq_true, decide_eq_true_eq]
  omega

theorem sorted_mergeSort_intLe (l : List Int) :
    (l.mergeSort intLe).Sorted (· ≤ ·) := by
  have h := List.sorted_mergeSort intLe_trans intLe_total l
  exact h.imp (fun hab => by simpa [intLe] using hab)

theorem jsRound_intCast (n : Int) : jsRound ((n : Int) : ℚ) = n := by
  unfold jsRound
  rw [Int.floor_int_add]
  norm_num

theorem sortedSalaries_unique (entries : List SalaryEntry) (l : List Int)
    (hperm : l.Perm (entries.map (fun e => e.salary)))
    (hsorted : l.Sorted (· ≤ ·)) :
    l = (entries.map (fun e => e.salary)).mergeSort intLe := by
  refine List.eq_of_perm_of_sorted ?_ hsorted (sorted_mergeSort_intLe _)
  exact hperm.trans (List.mergeSort_perm _ _).symm

/-- Characterisation of `computeMedian` through any ascending reordering of
the salary multiset (shared helper). -/
theorem computeMedian_sorted_value (entries : List SalaryEntry)
    (l : List Int) (hperm : l.Perm (entries.map (fun e => e.salary)))
    (hsorted : l.Sorted (· ≤ ·)) :
    computeMedian entries =
      if l.length = 0 then 0
      else if l.length % 2 = 0 then
        jsRound ((((l.getD (l.length / 2 - 1) 0 : Int) : ℚ) +
          ((l.getD (l.length / 2) 0 : Int) : ℚ)) / 2)
      else l.getD (l.length / 2) 0 := by
  have hl : l = (entries.map (fun e => e.salary)).mergeSort intLe :=
    sortedSalaries_unique entries l hperm hsorted
  have hlen : l.length = entries.length := by
    rw [hperm.length_eq, List.length_map]
  simp only [computeMedian]
  rw [sortedSalaries_eq, ← hl, ← hlen]
  by_cases hz : l.length = 0
  · simp [hz]
  · simp only [if_neg hz]
    by_cases he : l.length % 2 = 0
    · simp [he]
    · simp only [if_neg he, jsRound_intCast]

/-- C5: `computeMedian` returns 0 on an empty record set; otherwise it equals
the standard statistical median of the salaries rounded to an integer — for
any ascending reordering `l` of the salaries it is the middle element of `l`
when the count is odd, and the half-up-rounded mean of the two middle
elements when the count is even. -/
theorem computeMedian_is_statistical_median (entries : List SalaryEntry)
    (l : List Int) (hperm : l.Perm (entries.map (fun e => e.salary)))
    (hsorted : l.Sorted (· ≤ ·)) :
    computeMedian entries =
      if l.length = 0 then 0
      else if l.length % 2 = 0 then
        jsRound ((((l.getD (l.length / 2 - 1) 0 : Int) : ℚ) +
          ((l.getD (l.length / 2) 0 : Int) : ℚ)) / 2)
      else l.getD (l.length / 2) 0 :=
  computeMedian_sorted_value entries l hperm hsorted

/-- Record builder used by the concrete witnesses below: a clean (not yet
annotated) record with the given id, creation time and salary. -/
def mkEntry (id : String) (createdAt : Int) (salary : Int) : SalaryEntry :=
  { id := id
    created_at := createdAt
    formation := "Master"
    speciality := "SSI"
    contract_type := "CDI"
    salary := salary
    participant_type := "Alumni"
    job_title := none
    job_description := none
    years_since_graduation := none
    is_flagged_outlier := none
    outlier_reason := none }

/-- Three records with salaries 200000, 100000, 150000. -/
def medianWitnessEntries : List SalaryEntry :=
  [mkEntry "m1" 3 200000, mkEntry "m2" 2 100000, mkEntry "m3" 1 150000]

/-- Witness for C5 at a concrete input: the median of salaries
200000, 100000, 150000 is 150000. -/
theorem computeMedian_is_statistical_median_witness :
    computeMedian medianWitnessEntries = 150000 := by
  have h := computeMedian_is_statistical_median medianWitnessEntries
    [100000, 150000, 200000] (by decide) (by decide)
  rw [h]
  decide

/-! ### The two calculation filters as standalone functions -/

/-- The first filter step: drop records with a truthy outlier flag. -/
def dropFlagged (entries : List SalaryEntry) : List SalaryEntry :=
  entries.filter (fun entry => !(entry.is_flagged_outlier.getD false))

/-- The second filter step: drop records whose id is in the exclusion set. -/
def dropExcluded (excluded : List String) (entries : List SalaryEntry) :
    List SalaryEntry :=
  entries.filter (fun entry => !(excluded.contains entry.id))

/-- C2: with `excludeOutliers = true` and a non-empty exclusion set,
`filterEntriesForCalculations` is the composition of the two filters, the two
filters commute, and the result contains exactly the records that are neither
flagged nor in the exclusion set. -/
theorem filterForCalculations_intersection (entries : List SalaryEntry)
    (filters : SalaryFilters) (excluded : List String)
    (hout : filters.excludeOutliers = some true)
    (hexcl : filters.excludeSpecificEntries = some excluded)
    (hne : excluded ≠ []) :
    filterEntriesForCalculations entries filters =
      dropExcluded excluded (dropFlagged entries) ∧
    dropExcluded excluded (dropFlagged entries) =
      dropFlagged (dropExcluded excluded entries) ∧
    ∀ e, e ∈ filterEntriesForCalculations entries filters ↔
      (e ∈ entries ∧ e.is_flagged_outlier.getD false = false ∧
        excluded.contains e.id = false) := by
  have hlen : 0 < excluded.length := List.length_pos.mpr hne
  refine ⟨?_, ?_, ?_⟩
  · simp [filterEntriesForCalculations, hout, hexcl, hlen, dropFlagged, dropExcluded]
  · simp only [dropFlagged, dropExcluded, List.filter_filter]
    apply List.filter_congr
    intro e _
    exact Bool.and_comm _ _
  · intro e
    simp only [filterEntriesForCalculations, hout, hexcl, Option.getD_some,
      if_pos hlen, if_true, List.mem_filter, Bool.not_eq_eq_eq_not, Bool.not_true,
      Bool.and_eq_true]
    constructor
    · rintro ⟨⟨he, hflag⟩, hex⟩
      exact ⟨he, by simpa using hflag, by simpa using hex⟩
    · rintro ⟨he, hflag, hex⟩
      exact ⟨⟨he, by simpa using hflag⟩, by simpa using hex⟩

/-- Records for the C2 witness: one flagged, one explicitly excluded, one
kept. -/
def c2Flagged : SalaryEntry :=
  { mkEntry "x1" 1 100000 with
      is_flagged_outlier := some true
      outlier_reason := some "flagged" }

/-- The explicitly excluded record of the C2 witness. -/
def c2Excluded : SalaryEntry :=
  { mkEntry "x2" 2 110000 with is_flagged_outlier := some false }

/-- The kept record of the C2 witness. -/
def c2Kept : SalaryEntry :=
  { mkEntry "x3" 3 120000 with is_flagged_outlier := some false }

/-- The record list of the C2 witness. -/
def c2Entries : List SalaryEntry := [c2Flagged, c2Excluded, c2Kept]

/-- The preference set of the C2 witness: exclude outliers and the id x2. -/
def c2Filters : SalaryFilters :=
  { excludeOutliers := some true, excludeSpecificEntries := some ["x2"] }

/-- Witness for C2 at a concrete input. -/
theorem filterForCalculations_intersection_witness :
    filterEntriesForCalculations c2Entries c2Filters =
      dropExcluded ["x2"] (dropFlagged c2Entries) ∧
    dropExcluded ["x2"] (dropFlagged c2Entries) =
      dropFlagged (dropExcluded ["x2"] c2Entries) ∧
    (c2Kept ∈ filterEntriesForCalculations c2Entries c2Filters ↔
      (c2Kept ∈ c2Entries ∧ c2Kept.is_flagged_outlier.getD false = false ∧
        (["x2"] : List String).contains c2Kept.id = false)) := by
  have h := filterForCalculations_intersection c2Entries c2Filters ["x2"]
    rfl rfl (by decide)
  exact ⟨h.1, h.2.1, h.2.2 c2Kept⟩

/-! ### C1: behaviour of the unspecified exclude-outliers preference -/

/-- A record already carrying a positive outlier flag. -/
def c1Flagged : SalaryEntry :=
  { mkEntry "c1" 1 100000 with
      is_flagged_outlier := some true
      outlier_reason := some "flagged" }

/-- C1 counterexample: with the preference set left unspecified (the
TypeScript default `filters = {}`), `computeSalaryMetrics` does NOT exclude a
record with `is_flagged_outlier = true` — the record passes the calculation
filter and is counted among the participants. -/
theorem computeSalaryMetrics_default_includes_flagged :
    c1Flagged.is_flagged_outlier = some true ∧
    filterEntriesForCalculations [c1Flagged] defaultFilters = [c1Flagged] ∧
    (computeSalaryMetrics [c1Flagged] defaultFilters).totalParticipants = 1 := by
  exact ⟨rfl, rfl, rfl⟩

/-- C1 amended: the unspecified preference set removes nothing (the toggle is
falsy when absent); flagged records are excluded from the calculations
exactly when `excludeOutliers` is explicitly `true` — the default-true toggle
of the spec lives in the dashboard session state, not in
`computeSalaryMetrics`. -/
theorem filterForCalculations_excludeOutliers_behaviour
    (entries : List SalaryEntry) :
    filterEntriesForCalculations entries defaultFilters = entries ∧
    ∀ filters : SalaryFilters, filters.excludeOutliers = some true →
      ∀ e ∈ filterEntriesForCalculations entries filters,
        e.is_flagged_outlier.getD false = false := by
  constructor
  · rfl
  · intro filters hf e he
    unfold filterEntriesForCalculations at he
    rw [hf] at he
    simp only [Option.getD_some, if_true] at he
    rcases hexcl : filters.excludeSpecificEntries with _ | excluded
    · rw [hexcl] at he
      simp only [List.mem_filter, Bool.not_eq_eq_eq_not, Bool.not_true] at he
      exact he.2
    · rw [hexcl] at he
      by_cases hlen : 0 < excluded.length
      · simp only [if_pos hlen, List.mem_filter, Bool.not_eq_eq_eq_not,
          Bool.not_true] at he
        exact he.1.2
      · simp only [if_neg hlen, List.mem_filter, Bool.not_eq_eq_eq_not,
          Bool.not_true] at he
        exact he.2

/-- A clean record for the C1 amended witness. -/
def c1Clean : SalaryEntry := mkEntry "c2" 2 100000

/-- A preference set with the toggle explicitly on. -/
def c1OnFilters : SalaryFilters := { excludeOutliers := some true }

/-- Witness for the C1 amended theorem at a concrete input. -/
theorem filterForCalculations_excludeOutliers_behaviour_witness :
    filterEntriesForCalculations [c1Clean] defaultFilters = [c1Clean] ∧
    c1Clean.is_flagged_outlier.getD false = false :=
  ⟨(filterForCalculations_excludeOutliers_behaviour [c1Clean]).1,
   (filterForCalculations_excludeOutliers_behaviour [c1Clean]).2 c1OnFilters rfl
     c1Clean (by decide)⟩

/-! ### C3 / C4: the detection pipeline -/

/-- C3: the absolute heuristic is evaluated first and short-circuits the
relative one — whenever it returns a reason, the annotated record is exactly
the input flagged with that reason, whatever the rest of the record set
holds; within the absolute heuristic the floor is checked first, then the
global ceiling, then the contract ceiling, the first violated rule fixing
the reason; and the contract ceilings are Stage 500000, Alternance 600000,
CDD 1500000, CDI 2000000, Prestation de service 2000000. -/
theorem detectOutliers_absolute_first (entries : List SalaryEntry) (i : Nat)
    (e : SalaryEntry) (hi : entries[i]? = some e) :
    (∀ r, isAbsoluteOutlier e.salary e.contract_type = some r →
      (detectOutliers entries)[i]? = some (flagEntry e r)) ∧
    (e.salary < ABSOLUTE_MIN →
      isAbsoluteOutlier e.salary e.contract_type = some reasonTooLow) ∧
    (¬ e.salary < ABSOLUTE_MIN → e.salary > ABSOLUTE_MAX →
      isAbsoluteOutlier e.salary e.contract_type = some reasonTooHigh) ∧
    (∀ limit, ¬ e.salary < ABSOLUTE_MIN → ¬ e.salary > ABSOLUTE_MAX →
      CONTRACT_LIMITS e.contract_type = some limit → e.salary > limit →
      isAbsoluteOutlier e.salary e.contract_type =
        some (reasonContract e.contract_type limit)) ∧
    CONTRACT_LIMITS "Stage" = some 500000 ∧
    CONTRACT_LIMITS "Alternance" = some 600000 ∧
    CONTRACT_LIMITS "CDD" = some 1500000 ∧
    CONTRACT_LIMITS "CDI" = some 2000000 ∧
    CONTRACT_LIMITS "Prestation de service" = some 2000000 := by
  refine ⟨?_, ?_, ?_, ?_, by decide, by decide, by decide, by decide, by decide⟩
  · intro r hr
    unfold detectOutliers annotateEntry
    rw [List.getElem?_map, hi]
    simp [hr, flagEntry]
  · intro hlow
    unfold isAbsoluteOutlier
    rw [if_pos hlow]
  · intro hlow hhigh
    unfold isAbsoluteOutlier
    rw [if_neg hlow, if_pos hhigh]
  · intro limit hlow hhigh hlim hover
    unfold isAbsoluteOutlier
    rw [if_neg hlow, if_neg hhigh, hlim]
    simp [hover]

/-- The record of the C3 witness: a CDD salary of 2,500,000 violates both the
global ceiling and the CDD ceiling; the global ceiling is cited. -/
def c3Entry : SalaryEntry :=
  { mkEntry "g1" 1 2500000 with contract_type := "CDD" }

/-- Witness for C3 at a concrete input. -/
theorem detectOutliers_absolute_first_witness :
    (detectOutliers [c3Entry])[0]? = some (flagEntry c3Entry reasonTooHigh) ∧
    CONTRACT_LIMITS "CDD" = some 1500000 := by
  have h := detectOutliers_absolute_first [c3Entry] 0 c3Entry rfl
  exact ⟨h.1 reasonTooHigh (h.2.2.1 (by decide) (by decide)), h.2.2.2.2.2.2.1⟩

/-- C4: for a record not flagged by the absolute heuristic, the relative
check works on the group of the full input set sharing the record's exact
(formation, speciality, contract type) triple; a group below 3 members gives
no median and the record is not flagged; with a group median `m`, the record
is flagged exactly when its salary is strictly below `m / 3` or strictly
above `m * 2.5`, with the reason citing `m`. -/
theorem detectOutliers_relative_rule (entries : List SalaryEntry) (i : Nat)
    (e : SalaryEntry) (hi : entries[i]? = some e)
    (habs : isAbsoluteOutlier e.salary e.contract_type = none) :
    (calculateGroupMedian entries e.formation e.speciality e.contract_type =
      (if (entries.filter (fun x =>
            x.formation == e.formation && x.speciality == e.speciality &&
              x.contract_type == e.contract_type)).length < 3
        then none
        else some (computeMedian (entries.filter (fun x =>
            x.formation == e.formation && x.speciality == e.speciality &&
              x.contract_type == e.contract_type))))) ∧
    (calculateGroupMedian entries e.formation e.speciality e.contract_type =
        none →
      (detectOutliers entries)[i]? = some (clearEntry e)) ∧
    (∀ m, calculateGroupMedian entries e.formation e.speciality
        e.contract_type = some m →
      ((e.salary : ℚ) < (m : ℚ) / 3 →
        (detectOutliers entries)[i]? = some (flagEntry e (reasonBelowMedian m))) ∧
      (¬ (e.salary : ℚ) < (m : ℚ) / 3 → (e.salary : ℚ) > (m : ℚ) * (5 / 2) →
        (detectOutliers entries)[i]? = some (flagEntry e (reasonAboveMedian m))) ∧
      (¬ (e.salary : ℚ) < (m : ℚ) / 3 → ¬ (e.salary : ℚ) > (m : ℚ) * (5 / 2) →
        (detectOutliers entries)[i]? = some (clearEntry e))) := by
  refine ⟨rfl, ?_, ?_⟩
  · intro hmed
    unfold detectOutliers annotateEntry
    rw [List.getElem?_map, hi]
    simp [habs, hmed, clearEntry]
  · intro m hm
    refine ⟨?_, ?_, ?_⟩
    · intro hlow
      unfold detectOutliers annotateEntry
      rw [List.getElem?_map, hi]
      simp only [habs, hm, Option.map_some']
      unfold isRelativeOutlier
      rw [if_pos (by simpa [MEDIAN_DIVIDER] using hlow)]
    · intro hlow hhigh
      unfold detectOutliers annotateEntry
      rw [List.getElem?_map, hi]
      simp only [habs, hm, Option.map_some']
      unfold isRelativeOutlier
      rw [if_neg (by simpa [MEDIAN_DIVIDER] using hlow),
        if_pos (by simpa [MEDIAN_MULTIPLIER] using hhigh)]
    · intro hlow hhigh
      unfold detectOutliers annotateEntry
      rw [List.getElem?_map, hi]
      simp only [habs, hm, Option.map_some']
      unfold isRelativeOutlier
      rw [if_neg (by simpa [MEDIAN_DIVIDER] using hlow),
        if_neg (by simpa [MEDIAN_MULTIPLIER] using hhigh)]

/-- The records of the C4 witness: three CDI/SSI/Master salaries
100000, 210000, 600000; the group median is 210000 and 600000 exceeds
210000 × 2.5 = 525000. -/
def c4Entries : List SalaryEntry :=
  [mkEntry "r1" 1 100000, mkEntry "r2" 2 210000, mkEntry "r3" 3 600000]

/-- The relative-high record of the C4 witness. -/
def c4High : SalaryEntry := mkEntry "r3" 3 600000

/-- Witness for C4 at a concrete input. -/
theorem detectOutliers_relative_rule_witness :
    (detectOutliers c4Entries)[2]? =
      some (flagEntry c4High (reasonAboveMedian 210000)) := by
  have hcm : computeMedian c4Entries = 210000 := by
    have h := computeMedian_sorted_value c4Entries [100000, 210000, 600000]
      (by decide) (by decide)
    rw [h]
    decide
  have hmed : calculateGroupMedian c4Entries c4High.formation c4High.speciality
      c4High.contract_type = some 210000 := by
    have hfilter : (c4Entries.filter fun entry =>
        entry.formation == c4High.formation &&
          entry.speciality == c4High.speciality &&
          entry.contract_type == c4High.contract_type) = c4Entries := by decide
    simp only [calculateGroupMedian]
    rw [hfilter, if_neg (by decide), hcm]
  have h := detectOutliers_relative_rule c4Entries 2 c4High rfl (by decide)
  refine (h.2.2 210000 hmed).2.1 ?_ ?_
  · norm_num [c4High, mkEntry]
  · norm_num [c4High, mkEntry]

/-! ### Structure of `annotateEntry` results -/

theorem annotateEntry_of_abs (s : List SalaryEntry) (e : SalaryEntry)
    (r : String) (h : isAbsoluteOutlier e.salary e.contract_type = some r) :
    annotateEntry s e = flagEntry e r := by
  unfold annotateEntry
  rw [h]

theorem annotateEntry_of_no_median (s : List SalaryEntry) (e : SalaryEntry)
    (habs : isAbsoluteOutlier e.salary e.contract_type = none)
    (hmed : calculateGroupMedian s e.formation e.speciality e.contract_type =
      none) :
    annotateEntry s e = clearEntry e := by
  unfold annotateEntry
  rw [habs, hmed]

theorem annotateEntry_of_rel (s : List SalaryEntry) (e : SalaryEntry)
    (m : Int) (r : String)
    (habs : isAbsoluteOutlier e.salary e.contract_type = none)
    (hmed : calculateGroupMedian s e.formation e.speciality e.contract_type =
      some m)
    (hrel : isRelativeOutlier e.salary m = some r) :
    annotateEntry s e = flagEntry e r := by
  unfold annotateEntry
  rw [habs, hmed]
  simp only [hrel]

theorem annotateEntry_of_rel_clear (s : List SalaryEntry) (e : SalaryEntry)
    (m : Int)
    (habs : isAbsoluteOutlier e.salary e.contract_type = none)
    (hmed : calculateGroupMedian s e.formation e.speciality e.contract_type =
      some m)
    (hrel : isRelativeOutlier e.salary m = none) :
    annotateEntry s e = clearEntry e := by
  unfold annotateEntry
  rw [habs, hmed]
  simp only [hrel]

theorem annotateEntry_cases (s : List SalaryEntry) (e : SalaryEntry) :
    (∃ r, annotateEntry s e = flagEntry e r) ∨ annotateEntry s e = clearEntry e := by
  unfold annotateEntry
  split
  · exact Or.inl ⟨_, rfl⟩
  · split
    · split
      · exact Or.inl ⟨_, rfl⟩
      · exact Or.inr rfl
    · exact Or.inr rfl

/-- `annotateEntry` only writes the two annotation fields; every other field,
bundled here as a tuple, is preserved. -/
theorem annotateEntry_base_fields (s : List SalaryEntry) (e : SalaryEntry) :
    ((annotateEntry s e).id, (annotateEntry s e).created_at,
     (annotateEntry s e).formation, (annotateEntry s e).speciality,
     (annotateEntry s e).contract_type, (annotateEntry s e).salary,
     (annotateEntry s e).participant_type, (annotateEntry s e).job_title,
     (annotateEntry s e).job_description,
     (annotateEntry s e).years_since_graduation) =
    (e.id, e.created_at, e.formation, e.speciality, e.contract_type, e.salary,
     e.participant_type, e.job_title, e.job_description,
     e.years_since_graduation) := by
  rcases annotateEntry_cases s e with ⟨r, h⟩ | h <;> rw [h] <;> rfl

theorem annotateEntry_salary (s : List SalaryEntry) (e : SalaryEntry) :
    (annotateEntry s e).salary = e.salary := by
  rcases annotateEntry_cases s e with ⟨r, h⟩ | h <;> rw [h] <;> rfl

theorem annotateEntry_formation (s : List SalaryEntry) (e : SalaryEntry) :
    (annotateEntry s e).formation = e.formation := by
  rcases annotateEntry_cases s e with ⟨r, h⟩ | h <;> rw [h] <;> rfl

theorem annotateEntry_speciality (s : List SalaryEntry) (e : SalaryEntry) :
    (annotateEntry s e).speciality = e.speciality := by
  rcases annotateEntry_cases s e with ⟨r, h⟩ | h <;> rw [h] <;> rfl

theorem annotateEntry_contract (s : List SalaryEntry) (e : SalaryEntry) :
    (annotateEntry s e).contract_type = e.contract_type := by
  rcases annotateEntry_cases s e with ⟨r, h⟩ | h <;> rw [h] <;> rfl

/-- C10: `detectOutliers` keeps the length and the order of its input, every
non-annotation field of each output record equals the corresponding input
record's, and in each output record `outlier_reason` is a present string
exactly when `is_flagged_outlier` is true. -/
theorem detectOutliers_frame (entries : List SalaryEntry) :
    (detectOutliers entries).length = entries.length ∧
    (∀ i : Nat,
      ((detectOutliers entries)[i]?).map (fun e =>
        (e.id, e.created_at, e.formation, e.speciality, e.contract_type,
         e.salary, e.participant_type, e.job_title, e.job_description,
         e.years_since_graduation)) =
      (entries[i]?).map (fun e =>
        (e.id, e.created_at, e.formation, e.speciality, e.contract_type,
         e.salary, e.participant_type, e.job_title, e.job_description,
         e.years_since_graduation))) ∧
    (∀ e ∈ detectOutliers entries,
      (e.outlier_reason ≠ none ↔ e.is_flagged_outlier = some true)) := by
  refine ⟨List.length_map _ _, ?_, ?_⟩
  · intro i
    unfold detectOutliers
    rw [List.getElem?_map]
    cases h : entries[i]? with
    | none => rfl
    | some e =>
        simp only [Option.map_some']
        exact congrArg some (annotateEntry_base_fields entries e)
  · intro e he
    unfold detectOutliers at he
    rcases List.mem_map.mp he with ⟨a, _, rfl⟩
    rcases annotateEntry_cases entries a with ⟨r, h⟩ | h <;> rw [h]
    · simp [flagEntry]
    · simp [clearEntry]

/-- The record of the C10 witness. -/
def c10Entry : SalaryEntry := mkEntry "f1" 7 100000

/-- Witness for C10 at a concrete input. -/
theorem detectOutliers_frame_witness :
    (detectOutliers [c10Entry]).length = [c10Entry].length ∧
    ((annotateEntry [c10Entry] c10Entry).outlier_reason ≠ none ↔
      (annotateEntry [c10Entry] c10Entry).is_flagged_outlier = some true) := by
  have h := detectOutliers_frame [c10Entry]
  exact ⟨h.1, h.2.2 (annotateEntry [c10Entry] c10Entry)
    (List.mem_singleton_self _)⟩

/-! ### C6: idempotence of detection -/

theorem computeMedian_congr (l₁ l₂ : List SalaryEntry)
    (h : l₁.map (fun e => e.salary) = l₂.map (fun e => e.salary)) :
    computeMedian l₁ = computeMedian l₂ := by
  have h1 := computeMedian_sorted_value l₁
    ((l₁.map (fun e => e.salary)).mergeSort intLe)
    (List.mergeSort_perm _ _) (sorted_mergeSort_intLe _)
  have h2 := computeMedian_sorted_value l₂
    ((l₁.map (fun e => e.salary)).mergeSort intLe)
    (by rw [← h]; exact List.mergeSort_perm _ _) (sorted_mergeSort_intLe _)
  rw [h1, h2]

/-- Annotating every record changes no group, no group size and no group
median: `calculateGroupMedian` gives the same answer on the annotated set. -/
theorem calculateGroupMedian_annotated (entries : List SalaryEntry)
    (f s c : String) :
    calculateGroupMedian (entries.map (annotateEntry entries)) f s c =
      calculateGroupMedian entries f s c := by
  simp only [calculateGroupMedian]
  rw [List.filter_map]
  have hpred : ((fun entry => entry.formation == f && entry.speciality == s &&
        entry.contract_type == c) ∘ annotateEntry entries) =
      (fun entry => entry.formation == f && entry.speciality == s &&
        entry.contract_type == c) := by
    funext x
    simp only [Function.comp_apply, annotateEntry_formation,
      annotateEntry_speciality, annotateEntry_contract]
  rw [hpred, List.length_map]
  by_cases hlen : (entries.filter (fun entry => entry.formation == f &&
      entry.speciality == s && entry.contract_type == c)).length <
      MIN_GROUP_SIZE
  · rw [if_pos hlen, if_pos hlen]
  · rw [if_neg hlen, if_neg hlen]
    congr 1
    apply computeMedian_congr
    rw [List.map_map]
    apply List.map_congr_left
    intro a _
    exact annotateEntry_salary entries a

/-- A second annotation pass leaves an annotated record unchanged. -/
theorem annotateEntry_stable (entries : List SalaryEntry) (e : SalaryEntry) :
    annotateEntry (entries.map (annotateEntry entries))
      (annotateEntry entries e) = annotateEntry entries e := by
  cases habs : isAbsoluteOutlier e.salary e.contract_type with
  | some r =>
      rw [annotateEntry_of_abs entries e r habs,
        annotateEntry_of_abs _ (flagEntry e r) r habs]
      rfl
  | none =>
      cases hmed : calculateGroupMedian entries e.formation e.speciality
          e.contract_type with
      | none =>
          have hmed' : calculateGroupMedian
              (entries.map (annotateEntry entries)) (clearEntry e).formation
              (clearEntry e).speciality (clearEntry e).contract_type = none := by
            rw [calculateGroupMedian_annotated]
            exact hmed
          rw [annotateEntry_of_no_median entries e habs hmed,
            annotateEntry_of_no_median _ (clearEntry e) habs hmed']
          rfl
      | some m =>
          cases hrel : isRelativeOutlier e.salary m with
          | some r =>
              have hmed' : calculateGroupMedian
                  (entries.map (annotateEntry entries))
                  (flagEntry e r).formation (flagEntry e r).speciality
                  (flagEntry e r).contract_type = some m := by
                rw [calculateGroupMedian_annotated]
                exact hmed
              rw [annotateEntry_of_rel entries e m r habs hmed hrel,
                annotateEntry_of_rel _ (flagEntry e r) m r habs hmed' hrel]
              rfl
          | none =>
              have hmed' : calculateGroupMedian
                  (entries.map (annotateEntry entries))
                  (clearEntry e).formation (clearEntry e).speciality
                  (clearEntry e).contract_type = some m := by
                rw [calculateGroupMedian_annotated]
                exact hmed
              rw [annotateEntry_of_rel_clear entries e m habs hmed hrel,
                annotateEntry_of_rel_clear _ (clearEntry e) m habs hmed' hrel]
              rfl

/-- C6: `detectOutliers` is idempotent — a second pass over the already
annotated set returns it unchanged (in particular with identical
`is_flagged_outlier` / `outlier_reason` annotations), because detection
reads only formation, speciality, contract type and salary. -/
theorem detectOutliers_idempotent (entries : List SalaryEntry) :
    detectOutliers (detectOutliers entries) = detectOutliers entries := by
  show (entries.map (annotateEntry entries)).map
      (annotateEntry (entries.map (annotateEntry entries))) =
    entries.map (annotateEntry entries)
  rw [List.map_map]
  apply List.map_congr_left
  intro a _
  exact annotateEntry_stable entries a

/-! ### C9: the recent-entries list -/

theorem createdDesc_trans (a b c : SalaryEntry) :
    createdDesc a b → createdDesc b c → createdDesc a c := by
  simp only [createdDesc, decide_eq_true_eq]
  omega

theorem createdDesc_total (a b : SalaryEntry) :
    createdDesc a b || createdDesc b a := by
  simp only [createdDesc, Bool.or_eq_true, decide_eq_true_eq]
  omega

/-- C9: `latestEntries` does not depend on the preference set, contains every
input record exactly once (with all fields, annotations included), and is
sorted by creation time descending. -/
theorem computeSalaryMetrics_latestEntries (entries : List SalaryEntry)
    (f g : SalaryFilters) :
    (computeSalaryMetrics entries f).latestEntries =
      (computeSalaryMetrics entries g).latestEntries ∧
    ((computeSalaryMetrics entries f).latestEntries).Perm entries ∧
    ((computeSalaryMetrics entries f).latestEntries).Pairwise
      (fun a b => b.created_at ≤ a.created_at) := by
  refine ⟨rfl, ?_, ?_⟩
  · show (sortByCreatedDesc entries).Perm entries
    exact List.mergeSort_perm entries createdDesc
  · show (sortByCreatedDesc entries).Pairwise
      (fun a b => b.created_at ≤ a.created_at)
    have h := List.sorted_mergeSort createdDesc_trans createdDesc_total entries
    exact h.imp (fun hab => by simpa [createdDesc] using hab)

/-! ### C7: the salary histogram -/

/-- Index of the first bucket of `bs` containing `s` (the `find` of the
histogram loop, as an index). -/
def bucketIdx (bs : List Bucket) (s : Int) : Option Nat :=
  match bs with
  | [] => none
  | b :: rest =>
      if bucketContains b s then some 0 else (bucketIdx rest s).map (· + 1)

theorem incrBucket_fst (rcs : List (Bucket × Nat)) (s : Int) :
    (incrBucket rcs s).map Prod.fst = rcs.map Prod.fst := by
  induction rcs with
  | nil => rfl
  | cons hd tl ih =>
      obtain ⟨b, c⟩ := hd
      by_cases h : bucketContains b s
      · simp [incrBucket, h]
      · simp [incrBucket, h, ih]

theorem incrBucket_getElem (rcs : List (Bucket × Nat)) (s : Int) (i : Nat) :
    (incrBucket rcs s)[i]? = (rcs[i]?).map (fun bc =>
      if bucketIdx (rcs.map Prod.fst) s = some i then (bc.1, bc.2 + 1)
      else bc) := by
  induction rcs generalizing i with
  | nil => simp [incrBucket]
  | cons hd tl ih =>
      obtain ⟨b, c⟩ := hd
      by_cases hb : bucketContains b s
      · cases i with
        | zero => simp [incrBucket, hb, bucketIdx]
        | succ j => simp [incrBucket, hb, bucketIdx]
      · cases i with
        | zero =>
            simp only [incrBucket, if_neg hb, List.map_cons, bucketIdx]
            cases hidx : bucketIdx (tl.map Prod.fst) s <;> simp
        | succ j =>
            simp only [incrBucket, if_neg hb, List.map_cons, bucketIdx,
              List.getElem?_cons_succ, ih j]
            cases hidx : bucketIdx (tl.map Prod.fst) s <;> simp

theorem foldl_aggStep_rangeCounts (l : List SalaryEntry) (st : AggState) :
    (l.foldl aggStep st).rangeCounts =
      (l.map (fun e => e.salary)).foldl incrBucket st.rangeCounts := by
  induction l generalizing st with
  | nil => rfl
  | cons e t ih =>
      rw [List.map_cons, List.foldl_cons, List.foldl_cons, ih]
      rfl

theorem foldl_incrBucket_getElem (sals : List Int) (rcs : List (Bucket × Nat))
    (i : Nat) :
    (sals.foldl incrBucket rcs)[i]? = (rcs[i]?).map (fun bc =>
      (bc.1, bc.2 + sals.countP
        (fun s => bucketIdx (rcs.map Prod.fst) s == some i))) := by
  induction sals generalizing rcs with
  | nil =>
      cases h : rcs[i]? <;> simp [h]
  | cons s t ih =>
      rw [List.foldl_cons, ih, incrBucket_fst, incrBucket_getElem,
        Option.map_map, List.countP_cons]
      cases h : rcs[i]? with
      | none => rfl
      | some bc =>
          simp only [Option.map_some', Function.comp_apply]
          by_cases hidx : bucketIdx (rcs.map Prod.fst) s = some i
          · simp only [if_pos hidx, hidx, beq_self_eq_true, if_pos,
              Option.some.injEq, Prod.mk.injEq]
            exact ⟨trivial, by omega⟩
          · have hbeq : (bucketIdx (rcs.map Prod.fst) s == some i) = false := by
              simp [hidx]
            simp [if_neg hidx, hbeq]

/-- Evaluation of the first-matching-bucket index on the nine concrete
buckets, for non-negative salaries. -/
theorem bucketIdx_SALARY_BUCKETS (s : Int) (hs : 0 ≤ s) :
    bucketIdx SALARY_BUCKETS s =
      if s ≤ 99999 then some 0
      else if s ≤ 199999 then some 1
      else if s ≤ 299999 then some 2
      else if s ≤ 399999 then some 3
      else if s ≤ 499999 then some 4
      else if s ≤ 599999 then some 5
      else if s ≤ 699999 then some 6
      else if s ≤ 799999 then some 7
      else some 8 := by
  by_cases h1 : s ≤ 99999
  · simp [SALARY_BUCKETS, bucketIdx, bucketContains, hs, h1]
  · by_cases h2 : s ≤ 199999
    · simp [SALARY_BUCKETS, bucketIdx, bucketContains, hs, h1, h2,
        (by omega : (100000 : Int) ≤ s)]
    · by_cases h3 : s ≤ 299999
      · simp [SALARY_BUCKETS, bucketIdx, bucketContains, hs, h1, h2, h3,
          (by omega : (200000 : Int) ≤ s)]
      · by_cases h4 : s ≤ 399999
        · simp [SALARY_BUCKETS, bucketIdx, bucketContains, hs, h1, h2, h3, h4,
            (by omega : (300000 : Int) ≤ s)]
        · by_cases h5 : s ≤ 499999
          · simp [SALARY_BUCKETS, bucketIdx, bucketContains, hs, h1, h2, h3,
              h4, h5, (by omega : (400000 : Int) ≤ s)]
          · by_cases h6 : s ≤ 599999
            · simp [SALARY_BUCKETS, bucketIdx, bucketContains, hs, h1, h2, h3,
                h4, h5, h6, (by omega : (500000 : Int) ≤ s)]
            · by_cases h7 : s ≤ 699999
              · simp [SALARY_BUCKETS, bucketIdx, bucketContains, hs, h1, h2,
                  h3, h4, h5, h6, h7, (by omega : (600000 : Int) ≤ s)]
              · by_cases h8 : s ≤ 799999
                · simp [SALARY_BUCKETS, bucketIdx, bucketContains, hs, h1, h2,
                    h3, h4, h5, h6, h7, h8, (by omega : (700000 : Int) ≤ s)]
                · simp [SALARY_BUCKETS, bucketIdx, bucketContains, hs, h1, h2,
                    h3, h4, h5, h6, h7, h8, (by omega : (800000 : Int) ≤ s)]

/-- Which inclusive salary range each bucket index stands for, for
non-negative salaries. -/
theorem bucketIdx_mem_iff (s : Int) (hs : 0 ≤ s) :
    ((bucketIdx SALARY_BUCKETS s == some 0) ↔ (0 ≤ s ∧ s ≤ 99999)) ∧
    ((bucketIdx SALARY_BUCKETS s == some 1) ↔ (100000 ≤ s ∧ s ≤ 199999)) ∧
    ((bucketIdx SALARY_BUCKETS s == some 2) ↔ (200000 ≤ s ∧ s ≤ 299999)) ∧
    ((bucketIdx SALARY_BUCKETS s == some 3) ↔ (300000 ≤ s ∧ s ≤ 399999)) ∧
    ((bucketIdx SALARY_BUCKETS s == some 4) ↔ (400000 ≤ s ∧ s ≤ 499999)) ∧
    ((bucketIdx SALARY_BUCKETS s == some 5) ↔ (500000 ≤ s ∧ s ≤ 599999)) ∧
    ((bucketIdx SALARY_BUCKETS s == some 6) ↔ (600000 ≤ s ∧ s ≤ 699999)) ∧
    ((bucketIdx SALARY_BUCKETS s == some 7) ↔ (700000 ≤ s ∧ s ≤ 799999)) ∧
    ((bucketIdx SALARY_BUCKETS s == some 8) ↔ (800000 ≤ s)) := by
  have h := bucketIdx_SALARY_BUCKETS s hs
  by_cases h1 : s ≤ 99999
  · rw [if_pos h1] at h
    rw [h]; refine ⟨?_, ?_, ?_, ?_, ?_, ?_, ?_, ?_, ?_⟩ <;> simp <;> omega
  · rw [if_neg h1] at h
    by_cases h2 : s ≤ 199999
    · rw [if_pos h2] at h
      rw [h]; refine ⟨?_, ?_, ?_, ?_, ?_, ?_, ?_, ?_, ?_⟩ <;> simp <;> omega
    · rw [if_neg h2] at h
      by_cases h3 : s ≤ 299999
      · rw [if_pos h3] at h
        rw [h]; refine ⟨?_, ?_, ?_, ?_, ?_, ?_, ?_, ?_, ?_⟩ <;> simp <;> omega
      · rw [if_neg h3] at h
        by_cases h4 : s ≤ 399999
        · rw [if_pos h4] at h
          rw [h]; refine ⟨?_, ?_, ?_, ?_, ?_, ?_, ?_, ?_, ?_⟩ <;> simp <;> omega
        · rw [if_neg h4] at h
          by_cases h5 : s ≤ 499999
          · rw [if_pos h5] at h
            rw [h]; refine ⟨?_, ?_, ?_, ?_, ?_, ?_, ?_, ?_, ?_⟩ <;> simp <;> omega
          · rw [if_neg h5] at h
            by_cases h6 : s ≤ 599999
            · rw [if_pos h6] at h
              rw [h]; refine ⟨?_, ?_, ?_, ?_, ?_, ?_, ?_, ?_, ?_⟩ <;> simp <;> omega
            · rw [if_neg h6] at h
              by_cases h7 : s ≤ 699999
              · rw [if_pos h7] at h
                rw [h]; refine ⟨?_, ?_, ?_, ?_, ?_, ?_, ?_, ?_, ?_⟩ <;> simp <;> omega
              · rw [if_neg h7] at h
                by_cases h8 : s ≤ 799999
                · rw [if_pos h8] at h
                  rw [h]; refine ⟨?_, ?_, ?_, ?_, ?_, ?_, ?_, ?_, ?_⟩ <;> simp <;> omega
                · rw [if_neg h8] at h
                  rw [h]; refine ⟨?_, ?_, ?_, ?_, ?_, ?_, ?_, ?_, ?_⟩ <;> simp <;> omega

theorem mem_ite_filter {c : Prop} [Decidable c] {p : SalaryEntry → Bool}
    {l : List SalaryEntry} {e : SalaryEntry}
    (h : e ∈ if c then List.filter p l else l) : e ∈ l := by
  split at h
  · exact List.mem_of_mem_filter h
  · exact h

/-- The calculation filter only removes records. -/
theorem mem_filterForCalculations (entries : List SalaryEntry)
    (filters : SalaryFilters) (e : SalaryEntry)
    (h : e ∈ filterEntriesForCalculations entries filters) : e ∈ entries := by
  simp only [filterEntriesForCalculations] at h
  split at h
  · split at h
    · exact mem_ite_filter (List.mem_of_mem_filter h)
    · exact mem_ite_filter h
  · exact mem_ite_filter h

/-- The rangeCounts value after the whole loop: the nine buckets in order,
each with the number of processed salaries whose first matching bucket it
is. -/
theorem foldl_incrBucket_eval (sals : List Int) :
    sals.foldl incrBucket (SALARY_BUCKETS.map (fun b => (b, 0))) =
      [(⟨"< 100k", 0, some 99999⟩,
          sals.countP (fun s => bucketIdx SALARY_BUCKETS s == some 0)),
       (⟨"100k – 199k", 100000, some 199999⟩,
          sals.countP (fun s => bucketIdx SALARY_BUCKETS s == some 1)),
       (⟨"200k – 299k", 200000, some 299999⟩,
          sals.countP (fun s => bucketIdx SALARY_BUCKETS s == some 2)),
       (⟨"300k – 399k", 300000, some 399999⟩,
          sals.countP (fun s => bucketIdx SALARY_BUCKETS s == some 3)),
       (⟨"400k – 499k", 400000, some 499999⟩,
          sals.countP (fun s => bucketIdx SALARY_BUCKETS s == some 4)),
       (⟨"500k – 599k", 500000, some 599999⟩,
          sals.countP (fun s => bucketIdx SALARY_BUCKETS s == some 5)),
       (⟨"600k – 699k", 600000, some 699999⟩,
          sals.countP (fun s => bucketIdx SALARY_BUCKETS s == some 6)),
       (⟨"700k – 799k", 700000, some 799999⟩,
          sals.countP (fun s => bucketIdx SALARY_BUCKETS s == some 7)),
       (⟨"≥ 800k", 800000, none⟩,
          sals.countP (fun s => bucketIdx SALARY_BUCKETS s == some 8))] := by
  apply List.ext_getElem?
  intro i
  rw [foldl_incrBucket_getElem,
    show (SALARY_BUCKETS.map (fun b => (b, 0))).map Prod.fst = SALARY_BUCKETS
      from rfl]
  match i with
  | 0 => simp [SALARY_BUCKETS]
  | 1 => simp [SALARY_BUCKETS]
  | 2 => simp [SALARY_BUCKETS]
  | 3 => simp [SALARY_BUCKETS]
  | 4 => simp [SALARY_BUCKETS]
  | 5 => simp [SALARY_BUCKETS]
  | 6 => simp [SALARY_BUCKETS]
  | 7 => simp [SALARY_BUCKETS]
  | 8 => simp [SALARY_BUCKETS]
  | (j + 9) => rfl

/-- Bucket-index counts over salaries are the per-range counts over
records, for record sets with non-negative salaries. -/
theorem count_bucket_ranges (l : List SalaryEntry)
    (h : ∀ e ∈ l, 0 ≤ e.salary) :
    ((l.map (fun e => e.salary)).countP
        (fun s => bucketIdx SALARY_BUCKETS s == some 0) =
      (l.filter (fun e => decide (0 ≤ e.salary) && decide (e.salary ≤ 99999))).length) ∧
    ((l.map (fun e => e.salary)).countP
        (fun s => bucketIdx SALARY_BUCKETS s == some 1) =
      (l.filter (fun e => decide (100000 ≤ e.salary) && decide (e.salary ≤ 199999))).length) ∧
    ((l.map (fun e => e.salary)).countP
        (fun s => bucketIdx SALARY_BUCKETS s == some 2) =
      (l.filter (fun e => decide (200000 ≤ e.salary) && decide (e.salary ≤ 299999))).length) ∧
    ((l.map (fun e => e.salary)).countP
        (fun s => bucketIdx SALARY_BUCKETS s == some 3) =
      (l.filter (fun e => decide (300000 ≤ e.salary) && decide (e.salary ≤ 399999))).length) ∧
    ((l.map (fun e => e.salary)).countP
        (fun s => bucketIdx SALARY_BUCKETS s == some 4) =
      (l.filter (fun e => decide (400000 ≤ e.salary) && decide (e.salary ≤ 499999))).length) ∧
    ((l.map (fun e => e.salary)).countP
        (fun s => bucketIdx SALARY_BUCKETS s == some 5) =
      (l.filter (fun e => decide (500000 ≤ e.salary) && decide (e.salary ≤ 599999))).length) ∧
    ((l.map (fun e => e.salary)).countP
        (fun s => bucketIdx SALARY_BUCKETS s == some 6) =
      (l.filter (fun e => decide (600000 ≤ e.salary) && decide (e.salary ≤ 699999))).length) ∧
    ((l.map (fun e => e.salary)).countP
        (fun s => bucketIdx SALARY_BUCKETS s == some 7) =
      (l.filter (fun e => decide (700000 ≤ e.salary) && decide (e.salary ≤ 799999))).length) ∧
    ((l.map (fun e => e.salary)).countP
        (fun s => bucketIdx SALARY_BUCKETS s == some 8) =
      (l.filter (fun e => decide (800000 ≤ e.salary))).length) := by
  refine ⟨?_, ?_, ?_, ?_, ?_, ?_, ?_, ?_, ?_⟩ <;>
    (rw [List.countP_map, ← List.countP_eq_length_filter]
     apply List.countP_congr
     intro e he
     simp only [Function.comp_apply, Bool.and_eq_true, decide_eq_true_eq])
  · exact (bucketIdx_mem_iff e.salary (h e he)).1
  · exact (bucketIdx_mem_iff e.salary (h e he)).2.1
  · exact (bucketIdx_mem_iff e.salary (h e he)).2.2.1
  · exact (bucketIdx_mem_iff e.salary (h e he)).2.2.2.1
  · exact (bucketIdx_mem_iff e.salary (h e he)).2.2.2.2.1
  · exact (bucketIdx_mem_iff e.salary (h e he)).2.2.2.2.2.1
  · exact (bucketIdx_mem_iff e.salary (h e he)).2.2.2.2.2.2.1
  · exact (bucketIdx_mem_iff e.salary (h e he)).2.2.2.2.2.2.2.1
  · exact (bucketIdx_mem_iff e.salary (h e he)).2.2.2.2.2.2.2.2

/-- Every non-negative salary is counted in exactly one bucket: the nine
bucket-index counts sum to the number of salaries. -/
theorem count_sum (sals : List Int) (h : ∀ s ∈ sals, 0 ≤ s) :
    sals.countP (fun s => bucketIdx SALARY_BUCKETS s == some 0) +
      sals.countP (fun s => bucketIdx SALARY_BUCKETS s == some 1) +
      sals.countP (fun s => bucketIdx SALARY_BUCKETS s == some 2) +
      sals.countP (fun s => bucketIdx SALARY_BUCKETS s == some 3) +
      sals.countP (fun s => bucketIdx SALARY_BUCKETS s == some 4) +
      sals.countP (fun s => bucketIdx SALARY_BUCKETS s == some 5) +
      sals.countP (fun s => bucketIdx SALARY_BUCKETS s == some 6) +
      sals.countP (fun s => bucketIdx SALARY_BUCKETS s == some 7) +
      sals.countP (fun s => bucketIdx SALARY_BUCKETS s == some 8) = sals.length := by
  induction sals with
  | nil => rfl
  | cons s t ih =>
      have hs : (0 : Int) ≤ s := h s (List.mem_cons_self s t)
      have ht : ∀ x ∈ t, (0 : Int) ≤ x :=
        fun x hx => h x (List.mem_cons_of_mem s hx)
      specialize ih ht
      have hb := bucketIdx_SALARY_BUCKETS s hs
      simp only [List.countP_cons, List.length_cons]
      split_ifs at hb <;> simp [hb] <;> omega

/-- C7: for a record set with non-negative salaries, the histogram of
`computeSalaryMetrics` lists the nine fixed buckets in order, each bucket
counting exactly the eligible records whose salary lies in its inclusive
range (so each eligible record is counted once, in the bucket containing
its salary), and the bucket counts sum to the eligible-set size. -/
theorem computeSalaryMetrics_histogram (entries : List SalaryEntry)
    (filters : SalaryFilters)
    (hpos : ∀ e ∈ entries, 0 ≤ e.salary) :
    (computeSalaryMetrics entries filters).salariesByRange =
      [("< 100k",
          ((filterEntriesForCalculations entries filters).filter
            (fun e => decide (0 ≤ e.salary) && decide (e.salary ≤ 99999))).length),
       ("100k – 199k",
          ((filterEntriesForCalculations entries filters).filter
            (fun e => decide (100000 ≤ e.salary) && decide (e.salary ≤ 199999))).length),
       ("200k – 299k",
          ((filterEntriesForCalculations entries filters).filter
            (fun e => decide (200000 ≤ e.salary) && decide (e.salary ≤ 299999))).length),
       ("300k – 399k",
          ((filterEntriesForCalculations entries filters).filter
            (fun e => decide (300000 ≤ e.salary) && decide (e.salary ≤ 399999))).length),
       ("400k – 499k",
          ((filterEntriesForCalculations entries filters).filter
            (fun e => decide (400000 ≤ e.salary) && decide (e.salary ≤ 499999))).length),
       ("500k – 599k",
          ((filterEntriesForCalculations entries filters).filter
            (fun e => decide (500000 ≤ e.salary) && decide (e.salary ≤ 599999))).length),
       ("600k – 699k",
          ((filterEntriesForCalculations entries filters).filter
            (fun e => decide (600000 ≤ e.salary) && decide (e.salary ≤ 699999))).length),
       ("700k – 799k",
          ((filterEntriesForCalculations entries filters).filter
            (fun e => decide (700000 ≤ e.salary) && decide (e.salary ≤ 799999))).length),
       ("≥ 800k",
          ((filterEntriesForCalculations entries filters).filter
            (fun e => decide (800000 ≤ e.salary))).length)] ∧
    ((computeSalaryMetrics entries filters).salariesByRange.map
        Prod.snd).sum =
      (filterEntriesForCalculations entries filters).length := by
  have hposE : ∀ e ∈ filterEntriesForCalculations entries filters,
      0 ≤ e.salary :=
    fun e he => hpos e (mem_filterForCalculations entries filters e he)
  have hrc : (computeSalaryMetrics entries filters).salariesByRange =
      (((filterEntriesForCalculations entries filters).map
          (fun e => e.salary)).foldl incrBucket
        (SALARY_BUCKETS.map (fun b => (b, 0)))).map
        (fun bc => (bc.1.label, bc.2)) := by
    show (((filterEntriesForCalculations entries filters).foldl aggStep
        initialAggState).rangeCounts).map (fun bc => (bc.1.label, bc.2)) = _
    rw [foldl_aggStep_rangeCounts]
    rfl
  have hcnt := count_bucket_ranges
    (filterEntriesForCalculations entries filters) hposE
  rw [hrc, foldl_incrBucket_eval]
  constructor
  · simp only [List.map_cons, List.map_nil]
    rw [hcnt.1, hcnt.2.1, hcnt.2.2.1, hcnt.2.2.2.1, hcnt.2.2.2.2.1,
      hcnt.2.2.2.2.2.1, hcnt.2.2.2.2.2.2.1, hcnt.2.2.2.2.2.2.2.1,
      hcnt.2.2.2.2.2.2.2.2]
  · simp only [List.map_cons, List.map_nil, List.sum_cons, List.sum_nil]
    have hlen : ((filterEntriesForCalculations entries filters).map
        (fun e => e.salary)).length =
        (filterEntriesForCalculations entries filters).length :=
      List.length_map _ _
    have hsum := count_sum
      ((filterEntriesForCalculations entries filters).map
        (fun e => e.salary))
      (by
        intro s hsm
        rcases List.mem_map.mp hsm with ⟨e, he, rfl⟩
        exact hposE e he)
    omega

/-- The record of the C7 witness. -/
def c7Entry : SalaryEntry := mkEntry "h1" 1 100000

/-- Witness for C7 at a concrete input. -/
theorem computeSalaryMetrics_histogram_witness :
    ((computeSalaryMetrics [c7Entry] defaultFilters).salariesByRange.map
        Prod.snd).sum =
      (filterEntriesForCalculations [c7Entry] defaultFilters).length :=
  (computeSalaryMetrics_histogram [c7Entry] defaultFilters (by decide)).2

/-! ### C8: per-group averages and the participant count -/

/-- Sum of the salaries of the records of `l` whose `key` is `k`. -/
def sumGroup (key : SalaryEntry → String) (k : String)
    (l : List SalaryEntry) : Int :=
  ((l.filter (fun e => key e == k)).map (fun e => e.salary)).sum

/-- Number of records of `l` whose `key` is `k`. -/
def countGroup (key : SalaryEntry → String) (k : String)
    (l : List SalaryEntry) : Nat :=
  (l.filter (fun e => key e == k)).length

theorem lookup_addToSum (m : List (String × GroupAcc)) (k key : String)
    (s : Int) :
    (addToSum m key s).lookup k =
      if k = key then
        some (match m.lookup k with
          | some acc => GroupAcc.mk (acc.total + s) (acc.count + 1)
          | none => GroupAcc.mk s 1)
      else m.lookup k := by
  induction m with
  | nil =>
      by_cases hk : k = key
      · simp [addToSum, List.lookup, hk]
      · have hbeq : (k == key) = false := by simp [hk]
        simp [addToSum, List.lookup, hk, hbeq]
  | cons hd tl ih =>
      obtain ⟨q, acc⟩ := hd
      by_cases hq : q = key
      · subst hq
        simp only [addToSum, if_pos rfl]
        by_cases hk : k = q
        · subst hk
          simp [List.lookup]
        · have hbeq : (k == q) = false := by simp [hk]
          simp [List.lookup, hk, hbeq]
      · simp only [addToSum, if_neg hq]
        by_cases hk : k = q
        · subst hk
          simp [List.lookup, hq]
        · have hbeq : (k == q) = false := by simp [hk]
          simp [List.lookup, hk, hbeq, ih]

theorem lookup_foldl_addToSum (key : SalaryEntry → String)
    (l : List SalaryEntry) (m : List (String × GroupAcc)) (k : String) :
    (l.foldl (fun acc e => addToSum acc (key e) e.salary) m).lookup k =
      match m.lookup k with
      | some a => some (GroupAcc.mk (a.total + sumGroup key k l)
          (a.count + countGroup key k l))
      | none =>
          if countGroup key k l = 0 then none
          else some (GroupAcc.mk (sumGroup key k l) (countGroup key k l)) := by
  induction l generalizing m with
  | nil =>
      simp only [List.foldl_nil, sumGroup, countGroup, List.filter_nil,
        List.map_nil, List.sum_nil, List.length_nil]
      cases hm : m.lookup k with
      | none => rfl
      | some a => simp
  | cons e t ih =>
      rw [List.foldl_cons, ih, lookup_addToSum]
      by_cases hk : k = key e
      · rw [if_pos hk]
        have hfil : (e :: t).filter (fun x => key x == k) =
            e :: t.filter (fun x => key x == k) := by
          simp [List.filter_cons, hk]
        cases hm : m.lookup k with
        | some a =>
            simp only [hm, sumGroup, countGroup, hfil, List.map_cons,
              List.sum_cons, List.length_cons, Option.some.injEq,
              GroupAcc.mk.injEq]
            omega
        | none =>
            simp only [sumGroup, countGroup, hfil, List.map_cons,
              List.sum_cons, List.length_cons]
            rw [if_neg (by omega : ¬ (t.filter
              (fun x => key x == k)).length + 1 = 0)]
            simp only [Option.some.injEq, GroupAcc.mk.injEq]
            exact ⟨trivial, by omega⟩
      · rw [if_neg hk]
        have hfil : (e :: t).filter (fun x => key x == k) =
            t.filter (fun x => key x == k) := by
          have : (key e == k) = false := by
            simp only [beq_eq_false_iff_ne]
            exact fun h => hk h.symm
          simp [List.filter_cons, this]
        cases hm : m.lookup k with
        | none =>
            simp only [hm, sumGroup, countGroup, hfil]
        | some a =>
            simp only [hm, sumGroup, countGroup, hfil]

theorem lookup_accToAverage (m : List (String × GroupAcc)) (k : String) :
    (accToAverage m).lookup k = (m.lookup k).map (fun acc =>
      if acc.count ≠ 0 then jsRound ((acc.total : ℚ) / (acc.count : ℚ))
      else 0) := by
  induction m with
  | nil => rfl
  | cons hd tl ih =>
      obtain ⟨q, acc⟩ := hd
      by_cases hk : k = q
      · subst hk
        simp [accToAverage, List.lookup]
      · have hbeq : (k == q) = false := by simp [hk]
        have hcons : accToAverage ((q, acc) :: tl) =
            (q, if acc.count ≠ 0 then
              jsRound ((acc.total : ℚ) / (acc.count : ℚ)) else 0) ::
            accToAverage tl := rfl
        rw [hcons]
        simp only [List.lookup, hbeq]
        exact ih

theorem keys_accToAverage (m : List (String × GroupAcc)) :
    (accToAverage m).map Prod.fst = m.map Prod.fst := by
  unfold accToAverage
  rw [List.map_map]
  rfl

theorem keys_addToSum (m : List (String × GroupAcc)) (key : String) (s : Int) :
    (addToSum m key s).map Prod.fst =
      if key ∈ m.map Prod.fst then m.map Prod.fst
      else m.map Prod.fst ++ [key] := by
  induction m with
  | nil => simp [addToSum]
  | cons hd tl ih =>
      obtain ⟨q, acc⟩ := hd
      by_cases hq : q = key
      · subst hq
        simp [addToSum]
      · have hne : key ≠ q := fun h => hq h.symm
        by_cases hmem : key ∈ tl.map Prod.fst
        · simp [addToSum, hq, ih, hne, hmem]
        · simp [addToSum, hq, ih, hne, hmem]

theorem nodup_addToSum (m : List (String × GroupAcc)) (key : String) (s : Int)
    (h : (m.map Prod.fst).Nodup) :
    ((addToSum m key s).map Prod.fst).Nodup := by
  rw [keys_addToSum]
  by_cases hmem : key ∈ m.map Prod.fst
  · rwa [if_pos hmem]
  · rw [if_neg hmem]
    refine h.append (List.nodup_singleton key) ?_
    intro a ha hb
    rw [List.mem_singleton] at hb
    subst hb
    exact hmem ha

theorem nodup_foldl_addToSum (key : SalaryEntry → String)
    (l : List SalaryEntry) (m : List (String × GroupAcc))
    (h : (m.map Prod.fst).Nodup) :
    ((l.foldl (fun acc e => addToSum acc (key e) e.salary) m).map
      Prod.fst).Nodup := by
  induction l generalizing m with
  | nil => exact h
  | cons e t ih => exact ih _ (nodup_addToSum _ _ _ h)

theorem foldl_aggStep_sumByFormation (l : List SalaryEntry) (st : AggState) :
    (l.foldl aggStep st).sumByFormation =
      l.foldl (fun acc e => addToSum acc e.formation e.salary)
        st.sumByFormation := by
  induction l generalizing st with
  | nil => rfl
  | cons e t ih =>
      rw [List.foldl_cons, List.foldl_cons, ih]
      rfl

theorem foldl_aggStep_sumBySpecialty (l : List SalaryEntry) (st : AggState) :
    (l.foldl aggStep st).sumBySpecialty =
      l.foldl (fun acc e => addToSum acc e.speciality e.salary)
        st.sumBySpecialty := by
  induction l generalizing st with
  | nil => rfl
  | cons e t ih =>
      rw [List.foldl_cons, List.foldl_cons, ih]
      rfl

theorem foldl_aggStep_sumByContract (l : List SalaryEntry) (st : AggState) :
    (l.foldl aggStep st).sumByContract =
      l.foldl (fun acc e => addToSum acc e.contract_type e.salary)
        st.sumByContract := by
  induction l generalizing st with
  | nil => rfl
  | cons e t ih =>
      rw [List.foldl_cons, List.foldl_cons, ih]
      rfl

theorem filterForCalculations_nil (filters : SalaryFilters) :
    filterEntriesForCalculations [] filters = [] := by
  simp only [filterEntriesForCalculations]
  cases hex : filters.excludeSpecificEntries <;> simp

/-- C8: `totalParticipants` is the size of the eligible subset; each of
the three per-group average maps binds exactly the keys with at least one
eligible member (a key with no eligible member is absent, not zero), each
bound to the rounded mean salary of its eligible members, with no
duplicate keys; and the empty record set yields zero participants and
empty average maps. -/
theorem computeSalaryMetrics_averages (entries : List SalaryEntry)
    (filters : SalaryFilters) :
    (computeSalaryMetrics entries filters).totalParticipants =
      (filterEntriesForCalculations entries filters).length ∧
    (∀ k : String,
      ((computeSalaryMetrics entries filters).averageByFormation).lookup k =
        (if countGroup (fun e => e.formation) k
            (filterEntriesForCalculations entries filters) = 0 then none
         else some (jsRound ((sumGroup (fun e => e.formation) k
              (filterEntriesForCalculations entries filters) : ℚ) /
            (countGroup (fun e => e.formation) k
              (filterEntriesForCalculations entries filters) : ℚ))))) ∧
    (∀ k : String,
      ((computeSalaryMetrics entries filters).averageBySpecialty).lookup k =
        (if countGroup (fun e => e.speciality) k
            (filterEntriesForCalculations entries filters) = 0 then none
         else some (jsRound ((sumGroup (fun e => e.speciality) k
              (filterEntriesForCalculations entries filters) : ℚ) /
            (countGroup (fun e => e.speciality) k
              (filterEntriesForCalculations entries filters) : ℚ))))) ∧
    (∀ k : String,
      ((computeSalaryMetrics entries filters).averageByContract).lookup k =
        (if countGroup (fun e => e.contract_type) k
            (filterEntriesForCalculations entries filters) = 0 then none
         else some (jsRound ((sumGroup (fun e => e.contract_type) k
              (filterEntriesForCalculations entries filters) : ℚ) /
            (countGroup (fun e => e.contract_type) k
              (filterEntriesForCalculations entries filters) : ℚ))))) ∧
    ((computeSalaryMetrics entries filters).averageByFormation.map
      Prod.fst).Nodup ∧
    ((computeSalaryMetrics entries filters).averageBySpecialty.map
      Prod.fst).Nodup ∧
    ((computeSalaryMetrics entries filters).averageByContract.map
      Prod.fst).Nodup ∧
    (computeSalaryMetrics [] filters).totalParticipants = 0 ∧
    (computeSalaryMetrics [] filters).averageByFormation = [] ∧
    (computeSalaryMetrics [] filters).averageBySpecialty = [] ∧
    (computeSalaryMetrics [] filters).averageByContract = [] := by
  have hnil := filterForCalculations_nil filters
  refine ⟨rfl, ?_, ?_, ?_, ?_, ?_, ?_, ?_, ?_, ?_, ?_⟩
  · intro k
    have hmap : (computeSalaryMetrics entries filters).averageByFormation =
        accToAverage ((filterEntriesForCalculations entries filters).foldl
          (fun acc e => addToSum acc e.formation e.salary) []) := by
      show accToAverage (((filterEntriesForCalculations entries filters).foldl
          aggStep initialAggState).sumByFormation) = _
      rw [foldl_aggStep_sumByFormation]
      rfl
    rw [hmap, lookup_accToAverage,
      lookup_foldl_addToSum (fun e => e.formation)]
    by_cases hc : countGroup (fun e => e.formation) k
        (filterEntriesForCalculations entries filters) = 0
    · simp [hc]
    · simp [hc]
  · intro k
    have hmap : (computeSalaryMetrics entries filters).averageBySpecialty =
        accToAverage ((filterEntriesForCalculations entries filters).foldl
          (fun acc e => addToSum acc e.speciality e.salary) []) := by
      show accToAverage (((filterEntriesForCalculations entries filters).foldl
          aggStep initialAggState).sumBySpecialty) = _
      rw [foldl_aggStep_sumBySpecialty]
      rfl
    rw [hmap, lookup_accToAverage,
      lookup_foldl_addToSum (fun e => e.speciality)]
    by_cases hc : countGroup (fun e => e.speciality) k
        (filterEntriesForCalculations entries filters) = 0
    · simp [hc]
    · simp [hc]
  · intro k
    have hmap : (computeSalaryMetrics entries filters).averageByContract =
        accToAverage ((filterEntriesForCalculations entries filters).foldl
          (fun acc e => addToSum acc e.contract_type e.salary) []) := by
      show accToAverage (((filterEntriesForCalculations entries filters).foldl
          aggStep initialAggState).sumByContract) = _
      rw [foldl_aggStep_sumByContract]
      rfl
    rw [hmap, lookup_accToAverage,
      lookup_foldl_addToSum (fun e => e.contract_type)]
    by_cases hc : countGroup (fun e => e.contract_type) k
        (filterEntriesForCalculations entries filters) = 0
    · simp [hc]
    · simp [hc]
  · show ((accToAverage (((filterEntriesForCalculations entries filters).foldl
        aggStep initialAggState).sumByFormation)).map Prod.fst).Nodup
    rw [keys_accToAverage, foldl_aggStep_sumByFormation]
    exact nodup_foldl_addToSum (fun e => e.formation) _ _ List.nodup_nil
  · show ((accToAverage (((filterEntriesForCalculations entries filters).foldl
        aggStep initialAggState).sumBySpecialty)).map Prod.fst).Nodup
    rw [keys_accToAverage, foldl_aggStep_sumBySpecialty]
    exact nodup_foldl_addToSum (fun e => e.speciality) _ _ List.nodup_nil
  · show ((accToAverage (((filterEntriesForCalculations entries filters).foldl
        aggStep initialAggState).sumByContract)).map Prod.fst).Nodup
    rw [keys_accToAverage, foldl_aggStep_sumByContract]
    exact nodup_foldl_addToSum (fun e => e.contract_type) _ _ List.nodup_nil
  · show (filterEntriesForCalculations [] filters).length = 0
    rw [hnil]
    rfl
  · show accToAverage (((filterEntriesForCalculations [] filters).foldl
        aggStep initialAggState).sumByFormation) = []
    rw [hnil]
    rfl
  · show accToAverage (((filterEntriesForCalculations [] filters).foldl
        aggStep initialAggState).sumBySpecialty) = []
    rw [hnil]
    rfl
  · show accToAverage (((filterEntriesForCalculations [] filters).foldl
        aggStep initialAggState).sumByContract) = []
    rw [hnil]
    rfl
